import Mathlib

/-!
Verification of the sentiment-analyzer wrapper (FastAPI backend,
Streamlit frontend, process launcher) against its specification.

Strings are modelled as `List Char`; the Python string methods used by
the code (`strip`, `split`, `title`, `lower`, substring membership,
`startswith`) are embedded on the ASCII fragment the code exercises.
-/

namespace SentimentAnalyzer

/-- The ASCII whitespace characters removed by Python `str.strip()`. -/
def pyIsSpace (c : Char) : Bool :=
  c = ' ' || c = '\t' || c = '\n' || c = '\r' || c = '\x0b' || c = '\x0c'

/-- Python `s.strip()`: drop leading and trailing whitespace. -/
def pyStrip (s : List Char) : List Char :=
  ((s.dropWhile pyIsSpace).reverse.dropWhile pyIsSpace).reverse

/-- Python `s.split('\n')[0]`: the prefix before the first newline. -/
def firstLine (s : List Char) : List Char :=
  s.takeWhile (fun c => c != '\n')

/-- Python `s.lower()` on the ASCII fragment. -/
def pyLower (s : List Char) : List Char :=
  s.map Char.toLower

/-- Helper for `pyTitle`: the `Bool` records whether the previous
character was a cased (alphabetic) one. -/
def pyTitleAux : Bool → List Char → List Char
  | _, [] => []
  | prevCased, c :: cs =>
    if c.isAlpha then
      (if prevCased then c.toLower else c.toUpper) :: pyTitleAux true cs
    else
      c :: pyTitleAux false cs

/-- Python `s.title()` on the ASCII fragment: each alphabetic run starts
uppercase, the rest of the run is lowercased. -/
def pyTitle (s : List Char) : List Char :=
  pyTitleAux false s

/-- Python `needle in hay` for strings: substring containment. -/
def containsSub (needle : List Char) : List Char → Bool
  | [] => needle.isEmpty
  | c :: rest => needle.isPrefixOf (c :: rest) || containsSub needle rest

/-- The list `valid_sentiments = ["Positive", "Negative", "Neutral"]` in
`backend/main.py`. -/
def validSentiments : List (List Char) :=
  ["Positive".data, "Negative".data, "Neutral".data]

/-- Python `sentiment_clean` in `analyze_sentiment`: the raw `response` field is
stripped (`sentiment_raw`), then `sentiment_raw.split('\n')[0].strip().title()`. -/
def cleanLabel (response : List Char) : List Char :=
  pyTitle (pyStrip (firstLine (pyStrip response)))

/-- The label-normalization heuristic of `analyze_sentiment`
(backend/main.py lines 68-83): keep `sentiment_clean` when it is one of
the three valid labels, otherwise fall back to case-insensitive
substring matching with "positive" checked before "negative". -/
def normalizeSentiment (response : List Char) : List Char :=
  if cleanLabel response ∈ validSentiments then
    cleanLabel response
  else if containsSub "positive".data (pyLower (cleanLabel response)) then
    "Positive".data
  else if containsSub "negative".data (pyLower (cleanLabel response)) then
    "Negative".data
  else
    "Neutral".data

/-- The normalization exactly as claim C2 words it: take the first line
of the RAW reply, strip it, title-case it, then match; lines 74-83 of the
code unchanged. It differs from the code in that the code strips the
whole raw reply before splitting off the first line. -/
def claimNormalize (response : List Char) : List Char :=
  if pyTitle (pyStrip (firstLine response)) ∈ validSentiments then
    pyTitle (pyStrip (firstLine response))
  else if containsSub "positive".data (pyLower (pyTitle (pyStrip (firstLine response)))) then
    "Positive".data
  else if containsSub "negative".data (pyLower (pyTitle (pyStrip (firstLine response)))) then
    "Negative".data
  else
    "Neutral".data

/-- Claim C2 amended: take the first line of the whitespace-stripped raw
reply, strip and title-case it, then match as before. -/
def claimNormalizeAmended (response : List Char) : List Char :=
  if pyTitle (pyStrip (firstLine (pyStrip response))) ∈ validSentiments then
    pyTitle (pyStrip (firstLine (pyStrip response)))
  else if containsSub "positive".data (pyLower (pyTitle (pyStrip (firstLine (pyStrip response))))) then
    "Positive".data
  else if containsSub "negative".data (pyLower (pyTitle (pyStrip (firstLine (pyStrip response))))) then
    "Negative".data
  else
    "Neutral".data

/-! ## Backend `/analyze/` endpoint (backend/main.py, `analyze_sentiment`) -/

/-- The POST request `analyze_sentiment` issues to the inference
endpoint (backend/main.py lines 48-61). -/
structure OllamaRequest where
  url : List Char
  model : List Char
  prompt : List Char
  timeout : Nat
deriving DecidableEq, Repr

def ollamaURL : List Char := "http://localhost:11434/api/generate".data

/-- The f-string prompt built from the input text (lines 41-45). -/
def mkPrompt (text : List Char) : List Char :=
  "Analyze the sentiment of the following text and respond with exactly one word: Positive, Negative, or Neutral.\n\nText: \"".data
    ++ text
    ++ "\"\n\nSentiment:".data

/-- What the single `requests.post` call to the inference endpoint can
come back with: a raised `RequestException`, or an HTTP response with a
status code and a body; `some response` is a body that parses as JSON
with a string "response" field, `none` a body that does not. -/
inductive OllamaOutcome where
  | exn
  | resp (status : Nat) (body : Option (List Char))
deriving DecidableEq, Repr

/-- The success payload of `/analyze/` (lines 87-91). -/
structure AnalyzeOk where
  sentiment : List Char
  text : List Char
  rawResponse : List Char
deriving DecidableEq, Repr

/-- An `HTTPException(status_code=..., detail=...)`. -/
structure HTTPError where
  status : Nat
  detail : List Char
deriving DecidableEq, Repr

inductive AnalyzeResult where
  | ok (r : AnalyzeOk)
  | err (e : HTTPError)
deriving DecidableEq, Repr

/-- One invocation of `analyze_sentiment`: the requests it issued to the
inference endpoint, and its outcome. -/
structure AnalyzeRun where
  requests : List OllamaRequest
  result : AnalyzeResult
deriving DecidableEq, Repr

/-- The handler `analyze_sentiment` (backend/main.py lines 25-101) as a function of
the input text and of the outcome of the single inference call.
The `status != 200` branch raises `HTTPException(500, "Failed to connect
to Ollama service")` inside the `try`, which the blanket
`except Exception` handler catches and replaces with
`HTTPException(500, "An unexpected error occurred")`; a body that fails
to parse, or lacks the "response" key, likewise ends in a 500. -/
def analyzeSentiment (text : List Char) (outcome : OllamaOutcome) : AnalyzeRun :=
  if pyStrip text = [] then
    ⟨[], .err ⟨400, "Text cannot be empty".data⟩⟩
  else
    let req : OllamaRequest := ⟨ollamaURL, "mistral".data, mkPrompt text, 30⟩
    match outcome with
    | .exn =>
        ⟨[req], .err ⟨500, "Could not connect to Ollama service. Make sure Ollama is running and Mistral model is available.".data⟩⟩
    | .resp status body =>
        if status ≠ 200 then
          ⟨[req], .err ⟨500, "An unexpected error occurred".data⟩⟩
        else
          match body with
          | none => ⟨[req], .err ⟨500, "An unexpected error occurred".data⟩⟩
          | some response =>
              ⟨[req], .ok ⟨normalizeSentiment response, text, pyStrip response⟩⟩

/-! ## Backend `/health/` endpoint (backend/main.py, `health_check`) -/

/-- What the GET to `/api/tags` can come back with: a raised exception,
or a response with a status code and a body; `some names` is a body
whose JSON parses into a model list with the given model names, `none` a
body on which `response.json()` (or the subsequent field access)
raises. -/
inductive TagsOutcome where
  | exn
  | resp (status : Nat) (models : Option (List (List Char)))
deriving DecidableEq, Repr

inductive OllamaStatus where
  | connected
  | error
  | disconnected
deriving DecidableEq, Repr

/-- The dict returned by `health_check`; the `disconnected` case also
carries an `error` string in the code, not modelled here. -/
structure HealthReport where
  apiStatus : List Char
  ollamaStatus : OllamaStatus
  mistralAvailable : Bool
deriving DecidableEq, Repr

/-- Python `model["name"].startswith("mistral")`. -/
def startsWithMistral (name : List Char) : Bool :=
  "mistral".data.isPrefixOf name

/-- The handler `health_check` (backend/main.py lines 103-129). On status 200 the
code still has to parse the body inside the `try`; a parse failure
raises and is caught by the same `except` that covers the GET itself,
producing the `disconnected` report. -/
def healthCheck (outcome : TagsOutcome) : HealthReport :=
  match outcome with
  | .exn => ⟨"healthy".data, .disconnected, false⟩
  | .resp status models =>
      if status = 200 then
        match models with
        | some names => ⟨"healthy".data, .connected, names.any startsWithMistral⟩
        | none => ⟨"healthy".data, .disconnected, false⟩
      else
        ⟨"healthy".data, .error, false⟩

/-! ## Frontend rendering (frontend/app.py, analyze button handler) -/

/-- The three CSS styling classes the result div can get. -/
inductive Styling where
  | positive
  | negative
  | neutral
deriving DecidableEq, Repr

/-- The conditional styling of frontend/app.py lines 144-165: branch on
the lower-cased sentiment string. -/
def renderStyle (sentiment : List Char) : Styling :=
  if pyLower sentiment = "positive".data then .positive
  else if pyLower sentiment = "negative".data then .negative
  else .neutral

/-- The sentiment string the frontend extracts from a successful API
response: `result.get("sentiment", "Unknown")` (line 138). -/
def extractSentiment (sentimentField : Option (List Char)) : List Char :=
  sentimentField.getD "Unknown".data

/-- The styling the frontend displays for a successful API response
whose "sentiment" field is `sentimentField` (`none` when missing). -/
def displayedStyle (sentimentField : Option (List Char)) : Styling :=
  renderStyle (extractSentiment sentimentField)

/-! ## Statelessness: a whole sequence of `/analyze/` invocations -/

/-- The backend serving a sequence of independent requests, each given
by the input text and the inference-call outcome: `analyze_sentiment`
reads and writes no cross-request state, so the run of each request is a
function of that request alone. -/
def serveAll (reqs : List (List Char × OllamaOutcome)) : List AnalyzeRun :=
  reqs.map fun p => analyzeSentiment p.1 p.2

/-! ## Process launcher (start_app.py, class AppStarter) -/

/-- Observable actions of the launcher: spawning the two children,
one readiness poll of the backend root endpoint, and the teardown
signals (SIGTERM via `terminate()`, SIGKILL via `kill()`). -/
inductive Ev where
  | spawnBackend
  | spawnFrontend
  | poll (i : Nat)
  | termBackend
  | killBackend
  | termFrontend
  | killFrontend
deriving DecidableEq, Repr

/-- The environment a launcher run faces: whether the requirements
check passes, whether each child survives its startup grace period,
which readiness polls would succeed, and whether each child exits
within the 5-second `wait(timeout=5)` after `terminate()`. -/
structure Env where
  reqOk : Bool
  backendLaunches : Bool
  ready : Nat → Bool
  frontendLaunches : Bool
  backendExits5 : Bool
  frontendExits5 : Bool

/-- The loop body of `wait_for_backend` (start_app.py lines 183-191):
`fuel` attempts remain, `i` attempts were already made; returns the poll
events and whether some poll succeeded. -/
def wfbGo (ready : Nat → Bool) : Nat → Nat → List Ev × Bool
  | 0, _ => ([], false)
  | fuel + 1, i =>
    if ready i then ([.poll i], true)
    else
      let rest := wfbGo ready fuel (i + 1)
      (.poll i :: rest.1, rest.2)

/-- The method `wait_for_backend` (start_app.py lines 178-194): up to 30 one-second
polls of the backend root endpoint. -/
def waitForBackend (ready : Nat → Bool) : List Ev × Bool :=
  wfbGo ready 30 0

/-- Teardown of one child (start_app.py lines 200-213 and 224-236):
`terminate()`, then `wait(timeout=5)`; only on `TimeoutExpired` does the
launcher `kill()`. -/
def stopOne (term kill : Ev) (exits5 : Bool) : List Ev :=
  if exits5 then [term] else [term, kill]

/-- The method `stop_services` (start_app.py lines 196-242): tear down the backend,
then the frontend when one was spawned. -/
def stopServices (e : Env) (hasFrontend : Bool) : List Ev :=
  stopOne .termBackend .killBackend e.backendExits5 ++
    (if hasFrontend then stopOne .termFrontend .killFrontend e.frontendExits5 else [])

/-- The method `AppStarter.run` (start_app.py lines 244-303) as a trace of launcher
actions plus the final success flag. The wait loop of lines 285-299 ends
by interruption or by a child dying; either way `stop_services` runs
before the method returns. -/
def runTrace (e : Env) : List Ev × Bool :=
  if e.reqOk = false then ([], false)
  else if e.backendLaunches = false then ([.spawnBackend], false)
  else
    let w := waitForBackend e.ready
    if w.2 = false then
      (.spawnBackend :: w.1 ++ stopServices e false, false)
    else if e.frontendLaunches = false then
      (.spawnBackend :: w.1 ++ [.spawnFrontend] ++ stopServices e true, false)
    else
      (.spawnBackend :: w.1 ++ [.spawnFrontend] ++ stopServices e true, true)

/-- Is an event a readiness poll? -/
def isPoll : Ev → Bool
  | .poll _ => true
  | _ => false

/-- A concrete launcher environment: backend becomes ready on the third
poll, frontend needs the forced kill. -/
def envReadyAt2 : Env :=
  ⟨true, true, fun k => k == 2, true, true, false⟩

/-! ## Theorems -/

/-- Whatever the reply, the normalization lands in `valid_sentiments`. -/
lemma normalizeSentiment_mem (response : List Char) :
    normalizeSentiment response ∈ validSentiments := by
  unfold normalizeSentiment
  split_ifs with h1 h2 h3
  · exact h1
  · simp [validSentiments]
  · simp [validSentiments]
  · simp [validSentiments]

/-- C1: for every string reply from the inference service, the
normalization performed by `analyze_sentiment` puts exactly one of
"Positive", "Negative", "Neutral" in the "sentiment" field of a
successful result; no other label is ever returned on success. -/
theorem analyze_sentiment_label_in_fixed_set (text : List Char) (outcome : OllamaOutcome)
    (r : AnalyzeOk) (h : (analyzeSentiment text outcome).result = .ok r) :
    r.sentiment = "Positive".data ∨ r.sentiment = "Negative".data ∨
      r.sentiment = "Neutral".data := by
  by_cases he : pyStrip text = []
  · simp [analyzeSentiment, he] at h
  · cases outcome with
    | exn => simp [analyzeSentiment, he] at h
    | resp status body =>
      by_cases hs : status = 200
      · cases body with
        | none => simp [analyzeSentiment, he, hs] at h
        | some response =>
          simp [analyzeSentiment, he, hs] at h
          have hmem := normalizeSentiment_mem response
          simp [validSentiments] at hmem
          rw [← h]
          exact hmem
      · simp [analyzeSentiment, he, hs] at h

/-- Witness for C1 at a concrete reply that needs the fallback. -/
theorem analyze_sentiment_label_in_fixed_set_witness :
    (⟨"Neutral".data, "hi".data, "meh".data⟩ : AnalyzeOk).sentiment = "Positive".data ∨
    (⟨"Neutral".data, "hi".data, "meh".data⟩ : AnalyzeOk).sentiment = "Negative".data ∨
    (⟨"Neutral".data, "hi".data, "meh".data⟩ : AnalyzeOk).sentiment = "Neutral".data :=
  analyze_sentiment_label_in_fixed_set "hi".data (.resp 200 (some "meh".data))
    ⟨"Neutral".data, "hi".data, "meh".data⟩ (by decide)

/-- C2 counterexample: on the reply "\nPositive" the code (which strips
the whole raw reply before splitting off the first line) answers
"Positive", while the procedure described by the claim (first line of
the raw reply, then strip) answers "Neutral". -/
theorem claim_normalize_counterexample :
    normalizeSentiment ('\n' :: "Positive".data) = "Positive".data ∧
    claimNormalize ('\n' :: "Positive".data) = "Neutral".data ∧
    normalizeSentiment ('\n' :: "Positive".data) ≠ claimNormalize ('\n' :: "Positive".data) := by
  decide

/-- C2 amended: the normalization takes the first line of the
whitespace-stripped raw reply, strips and title-cases it; if that is
exactly one of the three labels it is kept, otherwise the lower-cased
string is searched for "positive" then "negative", defaulting to
"Neutral". -/
theorem normalize_matches_amended_description (response : List Char) :
    normalizeSentiment response = claimNormalizeAmended response := rfl

/-- C4: for every non-empty input text, one invocation of
`analyze_sentiment` issues exactly one request to the inference
endpoint, carrying the single 30-second timeout, whatever the outcome;
it never retries or sends a second request. -/
theorem analyze_sentiment_single_request (text : List Char) (outcome : OllamaOutcome)
    (h : pyStrip text ≠ []) :
    (analyzeSentiment text outcome).requests
      = [⟨ollamaURL, "mistral".data, mkPrompt text, 30⟩] := by
  cases outcome with
  | exn => simp [analyzeSentiment, h]
  | resp status body =>
    by_cases hs : status = 200
    · cases body with
      | none => simp [analyzeSentiment, h, hs]
      | some response => simp [analyzeSentiment, h, hs]
    · simp [analyzeSentiment, h, hs]

/-- Witness for C4: a concrete non-empty text whose request fails. -/
theorem analyze_sentiment_single_request_witness :
    (analyzeSentiment "ok".data .exn).requests
      = [⟨ollamaURL, "mistral".data, mkPrompt "ok".data, 30⟩] :=
  analyze_sentiment_single_request "ok".data .exn (by decide)

/-- C9: for every input text whose stripped form is empty,
`analyze_sentiment` fails with HTTP 400 "Text cannot be empty" and
issues no request to the inference endpoint. -/
theorem empty_text_rejected (text : List Char) (outcome : OllamaOutcome)
    (h : pyStrip text = []) :
    analyzeSentiment text outcome = ⟨[], .err ⟨400, "Text cannot be empty".data⟩⟩ := by
  unfold analyzeSentiment
  rw [if_pos h]

/-- Witness for C9 at a whitespace-only text. -/
theorem empty_text_rejected_witness :
    analyzeSentiment " \t\n ".data .exn = ⟨[], .err ⟨400, "Text cannot be empty".data⟩⟩ :=
  empty_text_rejected " \t\n ".data .exn (by decide)

/-- C10: in the substring fallback (cleaned first line not one of the
three labels), "positive" takes precedence over "negative": containing
both substrings yields "Positive", containing neither yields
"Neutral". -/
theorem fallback_positive_precedence (response : List Char)
    (h : cleanLabel response ∉ validSentiments) :
    (containsSub "positive".data (pyLower (cleanLabel response)) = true →
      containsSub "negative".data (pyLower (cleanLabel response)) = true →
        normalizeSentiment response = "Positive".data) ∧
    (containsSub "positive".data (pyLower (cleanLabel response)) = false →
      containsSub "negative".data (pyLower (cleanLabel response)) = false →
        normalizeSentiment response = "Neutral".data) := by
  constructor
  · intro hp _
    simp [normalizeSentiment, h, hp]
  · intro hp hn
    simp [normalizeSentiment, h, hp, hn]

/-- Witness for C10: a reply containing both substrings maps to
"Positive". -/
theorem fallback_positive_precedence_witness :
    normalizeSentiment "mixed positive and negative".data = "Positive".data :=
  (fallback_positive_precedence "mixed positive and negative".data (by decide)).1
    (by decide) (by decide)

/-- C5: for non-empty text, `analyze_sentiment` succeeds if and only if
the inference request came back with status 200 and a reply parsing as
JSON with a "response" field; every other case (exception, non-200
status, malformed reply) is an HTTP 500 error, with no recovery beyond
the timeout and the status-code check. -/
theorem analyze_sentiment_success_iff (text : List Char) (outcome : OllamaOutcome)
    (h : pyStrip text ≠ []) :
    ((∃ r, (analyzeSentiment text outcome).result = .ok r) ↔
      ∃ body, outcome = .resp 200 (some body)) ∧
    (∀ e, (analyzeSentiment text outcome).result = .err e → e.status = 500) := by
  cases outcome with
  | exn =>
    constructor
    · simp [analyzeSentiment, h]
    · intro e he
      simp [analyzeSentiment, h] at he
      rw [← he]
  | resp status body =>
    by_cases hs : status = 200
    · cases body with
      | none =>
        constructor
        · simp [analyzeSentiment, h, hs]
        · intro e he
          simp [analyzeSentiment, h, hs] at he
          rw [← he]
      | some response =>
        constructor
        · subst hs
          simp [analyzeSentiment, h]
        · intro e he
          simp [analyzeSentiment, h, hs] at he
    · constructor
      · simp [analyzeSentiment, h, hs]
      · intro e he
        simp [analyzeSentiment, h, hs] at he
        rw [← he]

/-- Witness for C5: a 200 reply with a "response" field yields a
successful result. -/
theorem analyze_sentiment_success_iff_witness :
    ∃ r, (analyzeSentiment "ok".data (.resp 200 (some "Positive".data))).result = .ok r :=
  (analyze_sentiment_success_iff "ok".data (.resp 200 (some "Positive".data))
    (by decide)).1.mpr ⟨"Positive".data, rfl⟩

/-- C8: the analyze operation keeps no state across requests: in any
two served sequences, positions holding the same (text, reply) pair
produce identical results. -/
theorem analyze_sentiment_stateless (reqs1 reqs2 : List (List Char × OllamaOutcome))
    (i j : Nat) (p : List Char × OllamaOutcome)
    (h1 : reqs1[i]? = some p) (h2 : reqs2[j]? = some p) :
    (serveAll reqs1)[i]? = (serveAll reqs2)[j]? := by
  simp [serveAll, List.getElem?_map, h1, h2]

/-- Witness for C8: the same request at different positions of
different runs yields the same result. -/
theorem analyze_sentiment_stateless_witness :
    (serveAll [("good".data, .exn)])[0]?
      = (serveAll [("pad".data, .resp 200 none), ("good".data, .exn)])[1]? :=
  analyze_sentiment_stateless [("good".data, .exn)]
    [("pad".data, .resp 200 none), ("good".data, .exn)] 0 1 ("good".data, .exn) rfl rfl

/-- Styling is `positive` exactly on the lower-cased string "positive". -/
lemma renderStyle_positive_iff (s : List Char) :
    renderStyle s = .positive ↔ pyLower s = "positive".data := by
  unfold renderStyle
  split_ifs with h1 h2 <;> simp_all

/-- Styling is `negative` exactly on the lower-cased string "negative". -/
lemma renderStyle_negative_iff (s : List Char) :
    renderStyle s = .negative ↔ pyLower s = "negative".data := by
  unfold renderStyle
  split_ifs with h1 h2 <;> simp_all

/-- Styling is `neutral` exactly when the lower-cased string is neither
"positive" nor "negative". -/
lemma renderStyle_neutral_iff (s : List Char) :
    renderStyle s = .neutral ↔
      (pyLower s ≠ "positive".data ∧ pyLower s ≠ "negative".data) := by
  unfold renderStyle
  split_ifs with h1 h2 <;> simp_all

/-- C3: the UI styles a successful response solely by the lower-cased
sentiment string: positive styling iff it equals "positive", negative
styling iff it equals "negative", neutral styling in every other case,
including the "Unknown" default for a missing label. -/
theorem frontend_conditional_styling (sentimentField : Option (List Char)) :
    (displayedStyle sentimentField = .positive ↔
       pyLower (extractSentiment sentimentField) = "positive".data) ∧
    (displayedStyle sentimentField = .negative ↔
       pyLower (extractSentiment sentimentField) = "negative".data) ∧
    (displayedStyle sentimentField = .neutral ↔
       (pyLower (extractSentiment sentimentField) ≠ "positive".data ∧
        pyLower (extractSentiment sentimentField) ≠ "negative".data)) ∧
    displayedStyle none = .neutral :=
  ⟨renderStyle_positive_iff _, renderStyle_negative_iff _,
   renderStyle_neutral_iff _, by decide⟩

/-- C6 counterexample: a ping that returns status 200 with a body on
which `response.json()` raises is reported "disconnected", not
"connected", so "connected if and only if the ping returned status 200"
fails. -/
theorem health_check_counterexample :
    (healthCheck (.resp 200 none)).ollamaStatus = OllamaStatus.disconnected ∧
    (healthCheck (.resp 200 none)).ollamaStatus ≠ OllamaStatus.connected := by
  decide

/-- C6 amended: `health_check` never raises and always reports
api_status "healthy"; it reports "connected" (with the mistral flag
computed from the model names) iff the ping returned status 200 with a
body that parses into a model list, "error" iff the status was not 200,
and "disconnected" iff the ping raised or the 200 body failed to
parse. -/
theorem health_check_report (outcome : TagsOutcome) (names : List (List Char)) :
    (healthCheck outcome).apiStatus = "healthy".data ∧
    ((healthCheck outcome).ollamaStatus = .connected ↔
      ∃ ms, outcome = .resp 200 (some ms)) ∧
    ((healthCheck outcome).ollamaStatus = .error ↔
      ∃ st ms, st ≠ 200 ∧ outcome = .resp st ms) ∧
    ((healthCheck outcome).ollamaStatus = .disconnected ↔
      (outcome = .exn ∨ outcome = .resp 200 none)) ∧
    (healthCheck (.resp 200 (some names))).mistralAvailable
      = names.any startsWithMistral := by
  refine ⟨?_, ?_, ?_, ?_, by simp [healthCheck]⟩
  · cases outcome with
    | exn => rfl
    | resp st ms =>
      by_cases hs : st = 200
      · cases ms <;> simp [healthCheck, hs]
      · simp [healthCheck, hs]
  · cases outcome with
    | exn => simp [healthCheck]
    | resp st ms =>
      by_cases hs : st = 200
      · cases ms <;> simp [healthCheck, hs]
      · simp [healthCheck, hs]
  · cases outcome with
    | exn => simp [healthCheck]
    | resp st ms =>
      by_cases hs : st = 200
      · subst hs
        cases ms <;> simp [healthCheck]
      · simp [healthCheck, hs]
  · cases outcome with
    | exn => simp [healthCheck]
    | resp st ms =>
      by_cases hs : st = 200
      · subst hs
        cases ms <;> simp [healthCheck]
      · simp [healthCheck, hs]

/-- The poll loop makes at most `fuel` attempts. -/
lemma wfbGo_length_le (ready : Nat → Bool) :
    ∀ fuel i, (wfbGo ready fuel i).1.length ≤ fuel := by
  intro fuel
  induction fuel with
  | zero => intro i; simp [wfbGo]
  | succ n ih =>
    intro i
    by_cases h : ready i
    · simp [wfbGo, h]
    · have := ih (i + 1)
      simp only [wfbGo, h, if_false, Bool.false_eq_true, List.length_cons]
      omega

/-- The poll loop reports success exactly when some attempt within the
fuel succeeds. -/
lemma wfbGo_true_iff (ready : Nat → Bool) :
    ∀ fuel i, (wfbGo ready fuel i).2 = true ↔
      ∃ k, k < fuel ∧ ready (i + k) = true := by
  intro fuel
  induction fuel with
  | zero => intro i; simp [wfbGo]
  | succ n ih =>
    intro i
    by_cases h : ready i
    · simp only [wfbGo, h, if_true]
      constructor
      · intro _
        exact ⟨0, by omega, by simpa using h⟩
      · intro _
        trivial
    · simp only [wfbGo, h, if_false, Bool.false_eq_true]
      rw [ih (i + 1)]
      constructor
      · rintro ⟨k, hk, hr⟩
        refine ⟨k + 1, by omega, ?_⟩
        have harith : i + (k + 1) = i + 1 + k := by omega
        rw [harith]
        exact hr
      · rintro ⟨k, hk, hr⟩
        cases k with
        | zero =>
          exact absurd (by simpa using hr) h
        | succ m =>
          refine ⟨m, by omega, ?_⟩
          have harith : i + 1 + m = i + (m + 1) := by omega
          rw [harith]
          exact hr

/-- The readiness wait succeeds exactly when one of the 30 one-second
polls succeeds. -/
lemma waitForBackend_true_iff (ready : Nat → Bool) :
    (waitForBackend ready).2 = true ↔ ∃ k, k < 30 ∧ ready k = true := by
  have h := wfbGo_true_iff ready 30 0
  simpa [waitForBackend] using h

/-- Teardown emits no poll events. -/
lemma countP_stopServices (e : Env) (hasFrontend : Bool) :
    (stopServices e hasFrontend).countP isPoll = 0 := by
  unfold stopServices stopOne
  cases e.backendExits5 <;> cases e.frontendExits5 <;> cases hasFrontend <;>
    simp [List.countP_append, List.countP_cons, isPoll]

/-- C7: with the requirements check passing and both children starting,
the launcher spawns the API service and the UI client as two child
processes; it makes at most 30 readiness polls, reports failure when
none succeeds, and succeeds (ending with a teardown of both children)
when one does; teardown of a child sends the graceful terminate first
and kills only a child that did not exit within the 5-second wait. -/
theorem launcher_behavior (e : Env)
    (hreq : e.reqOk = true) (hb : e.backendLaunches = true)
    (hf : e.frontendLaunches = true) :
    ((∃ k, k < 30 ∧ e.ready k = true) →
        Ev.spawnBackend ∈ (runTrace e).1 ∧ Ev.spawnFrontend ∈ (runTrace e).1 ∧
        (runTrace e).2 = true ∧ stopServices e true <:+ (runTrace e).1) ∧
    ((runTrace e).1.countP isPoll ≤ 30) ∧
    ((∀ k, k < 30 → e.ready k = false) → (runTrace e).2 = false) ∧
    (∀ b : Bool, (stopOne .termBackend .killBackend b).head? = some .termBackend ∧
        (Ev.killBackend ∈ stopOne .termBackend .killBackend b ↔ b = false)) ∧
    (∀ b : Bool, (stopOne .termFrontend .killFrontend b).head? = some .termFrontend ∧
        (Ev.killFrontend ∈ stopOne .termFrontend .killFrontend b ↔ b = false)) := by
  refine ⟨?_, ?_, ?_, ?_, ?_⟩
  · rintro ⟨k, hk, hr⟩
    have hw : (waitForBackend e.ready).2 = true :=
      (waitForBackend_true_iff e.ready).mpr ⟨k, hk, hr⟩
    simp only [runTrace, hreq, hb, hf, hw, Bool.true_eq_false, if_false]
    refine ⟨by simp, by simp, trivial, ?_⟩
    exact (List.suffix_append _ _).trans (List.suffix_cons _ _)
  · have h1 : (waitForBackend e.ready).1.countP isPoll
        ≤ (waitForBackend e.ready).1.length := List.countP_le_length _
    have h2 : (waitForBackend e.ready).1.length ≤ 30 := wfbGo_length_le e.ready 30 0
    by_cases hw : (waitForBackend e.ready).2 = true
    · simp [runTrace, hreq, hb, hf, hw, List.countP_cons, List.countP_append,
        countP_stopServices, isPoll]
      omega
    · have hw2 : (waitForBackend e.ready).2 = false := by
        cases h : (waitForBackend e.ready).2
        · rfl
        · exact absurd h hw
      simp [runTrace, hreq, hb, hf, hw2, List.countP_cons, List.countP_append,
        countP_stopServices, isPoll]
      omega
  · intro hnone
    have hw2 : (waitForBackend e.ready).2 = false := by
      cases h : (waitForBackend e.ready).2
      · rfl
      · obtain ⟨k, hk, hr⟩ := (waitForBackend_true_iff e.ready).mp h
        rw [hnone k hk] at hr
        exact absurd hr (by simp)
    simp [runTrace, hreq, hb, hf, hw2]
  · intro b
    cases b <;> exact ⟨rfl, by decide⟩
  · intro b
    cases b <;> exact ⟨rfl, by decide⟩

/-- Witness for C7 at a concrete environment where the backend becomes
ready on the third poll. -/
theorem launcher_behavior_witness :
    (runTrace envReadyAt2).2 = true ∧ Ev.spawnFrontend ∈ (runTrace envReadyAt2).1 := by
  have h := launcher_behavior envReadyAt2 rfl rfl rfl
  have h1 := h.1 ⟨2, by omega, rfl⟩
  exact ⟨h1.2.2.1, h1.2.1⟩

end SentimentAnalyzer
